import Mathlib

/-!
Verification of the Safety Pulse backend core (`safety-pulse-backend/app`).

The Python services are shallowly embedded in Lean.  Python floats are
modelled as exact rationals (every float value is a rational, and all the
formulas below are plain field arithmetic), times are rationals measured in
hours, and database rows become Lean structures.  Where the source computes
`math.exp`, the model uses `Real.exp` over `ℝ` (pulse time decay) or carries
the decay factor as an explicit parameter together with a lemma bounding the
real factor (signal confidence decay).
-/

namespace SafePulse

/-- Report lifecycle status, from `app/models.py` (`class ReportStatus`). -/
inductive ReportStatus where
  | pending
  | verified
  | disputed
  | expired
  | deleted
deriving DecidableEq, Repr

/-- Report category, from `app/models.py` (`class SignalType`). -/
inductive SignalType where
  | followed
  | suspicious_activity
  | unsafe_area
  | harassment
  | other
deriving DecidableEq, Repr

/-- A safety report row, from `app/models.py` (`class SafetySignal`).
Timestamps are rationals in hours; nullable columns are `Option`. -/
structure Signal where
  trust_score : ℚ
  confidence_score : ℚ
  true_votes : ℕ
  false_votes : ℕ
  severity : ℕ
  signal_type : SignalType
  status : ReportStatus
  user_id : Option ℕ
  timestamp : ℚ
  is_valid : Bool
  severity_weight : ℚ
  vote_window_expires_at : Option ℚ
  expires_at : Option ℚ
  verified_at : Option ℚ
  disputed_at : Option ℚ
  delete_cooldown_expires_at : Option ℚ
  deleted_by_owner : Bool
  last_activity_at : ℚ
deriving DecidableEq, Repr

/-- A vote row for one report, from `app/models.py`
(`class ReportVerification`, restricted to a single signal). -/
structure Vote where
  user_id : ℕ
  is_true : Bool
deriving DecidableEq, Repr

namespace TrustScoringService

/-- `TrustScoringService.MIN_TRUST_SCORE` (`app/services/trust_scoring.py`). -/
def MIN_TRUST_SCORE : ℚ := 0.2

/-- `TrustScoringService.MAX_TRUST_SCORE` (`app/services/trust_scoring.py`). -/
def MAX_TRUST_SCORE : ℚ := 1.0

/-- `TrustScoringService.clamp_trust_score`:
`max(MIN_TRUST_SCORE, min(MAX_TRUST_SCORE, score))`. -/
def clamp_trust_score (score : ℚ) : ℚ :=
  max MIN_TRUST_SCORE (min MAX_TRUST_SCORE score)

/-- `TrustScoringService.calculate_verification_based_trust`.  The local
`trust_ratio` of the source is called `trust_frac` here. -/
def calculate_verification_based_trust
    (true_votes false_votes : ℕ) (base_trust_score : ℚ) : ℚ :=
  let total_votes := true_votes + false_votes
  if total_votes = 0 then
    clamp_trust_score base_trust_score
  else
    let trust_frac : ℚ := (true_votes : ℚ) / (total_votes : ℚ)
    -- min_votes_for_full_weight = 10; vote_weight = min(0.4, total/10 * 0.4)
    let vote_weight : ℚ := min 0.4 ((total_votes : ℚ) / 10 * 0.4)
    clamp_trust_score (base_trust_score * (1 - vote_weight) + trust_frac * vote_weight)

/-- `TrustScoringService.update_signal_trust_from_vote`: increment the tally,
recompute vote-derived trust from a 0.5 prior, blend 60/40 with the stored
trust, clamp. -/
def update_signal_trust_from_vote (is_true_vote : Bool) (signal : Signal) : Signal :=
  let signal :=
    if is_true_vote then { signal with true_votes := signal.true_votes + 1 }
    else { signal with false_votes := signal.false_votes + 1 }
  let new_trust_score :=
    calculate_verification_based_trust signal.true_votes signal.false_votes 0.5
  -- original_weight = 0.6, new_weight = 0.4
  let blended_score := signal.trust_score * 0.6 + new_trust_score * 0.4
  { signal with trust_score := clamp_trust_score blended_score }

/-- `TrustScoringService.revert_vote_from_signal`: decrement the tally
(`max(0, n - 1)`, which is truncated subtraction on `ℕ`), recompute
vote-derived trust from a 0.5 prior, blend 60/40, clamp. -/
def revert_vote_from_signal (was_true_vote : Bool) (signal : Signal) : Signal :=
  let signal :=
    if was_true_vote then { signal with true_votes := signal.true_votes - 1 }
    else { signal with false_votes := signal.false_votes - 1 }
  let new_trust_score :=
    calculate_verification_based_trust signal.true_votes signal.false_votes 0.5
  let blended_score := signal.trust_score * 0.6 + new_trust_score * 0.4
  { signal with trust_score := clamp_trust_score blended_score }

/-- `TrustScoringService.calculate_trust_score_from_signal`, with the returned
score written back to the signal (this is how callers use it). -/
def calculate_trust_score_from_signal (signal : Signal) : Signal :=
  let t :=
    calculate_verification_based_trust signal.true_votes signal.false_votes
      signal.trust_score
  { signal with trust_score := t }

end TrustScoringService

namespace ReportLifecycleService

/-- `VERIFY_THRESHOLD` (`app/services/report_lifecycle.py`). -/
def VERIFY_THRESHOLD : ℚ := 0.7

/-- `DISPUTE_THRESHOLD` (`app/services/report_lifecycle.py`). -/
def DISPUTE_THRESHOLD : ℚ := 0.3

/-- `MIN_VOTES_FOR_STATUS_UPDATE` (`app/services/report_lifecycle.py`). -/
def MIN_VOTES_FOR_STATUS_UPDATE : ℕ := 3

/-- `VOTE_WEIGHT` (`app/services/report_lifecycle.py`). -/
def VOTE_WEIGHT : ℚ := 0.4

/-- `TRUST_WEIGHT` (`app/services/report_lifecycle.py`). -/
def TRUST_WEIGHT : ℚ := 0.3

/-- `RECENCY_WEIGHT` (`app/services/report_lifecycle.py`). -/
def RECENCY_WEIGHT : ℚ := 0.2

/-- `SEVERITY_WEIGHT` (`app/services/report_lifecycle.py`). -/
def SEVERITY_WEIGHT : ℚ := 0.1

/-- `ReportLifecycleService.can_accept_votes`: false when the report is
deleted or expired, or when the vote window has elapsed (`now > expiry`). -/
def can_accept_votes (now : ℚ) (signal : Signal) : Bool :=
  if signal.status = ReportStatus.deleted ∨ signal.status = ReportStatus.expired then
    false
  else
    match signal.vote_window_expires_at with
    | some w => !(decide (w < now))
    | none => true

/-- `ReportLifecycleService.has_user_voted` for the single modelled report. -/
def has_user_voted (votes : List Vote) (uid : ℕ) : Bool :=
  votes.any fun v => v.user_id = uid

/-- Vote rejection reasons, following the error taxonomy of the spec:
`conflict` is the "already voted" rejection, `failedPrecondition` the
closed/deleted/expired vote-window rejections, `permissionDenied` the
self-vote rejection. -/
inductive VoteError where
  | conflict
  | failedPrecondition
  | permissionDenied
deriving DecidableEq, Repr

/-- `ReportLifecycleService.check_vote_permission`: the three rejection
reasons, checked in source order (already voted, then vote window, then
ownership); `none` means the vote may proceed. -/
def check_vote_permission (now : ℚ) (signal : Signal) (votes : List Vote)
    (uid : ℕ) : Option VoteError :=
  if has_user_voted votes uid then some VoteError.conflict
  else if !(can_accept_votes now signal) then some VoteError.failedPrecondition
  else if signal.user_id = some uid then some VoteError.permissionDenied
  else none

/-- `ReportLifecycleService.calculate_confidence`.  Takes the current time
(the source reads the clock for `hours_since`); the vote tallies are passed
separately exactly as in the source.  The local `trust_ratio` of the source
is called `trust_frac` here. -/
def calculate_confidence (now : ℚ) (signal : Signal)
    (true_votes false_votes : ℕ) : ℚ :=
  let total_votes := true_votes + false_votes
  let vote_confidence : ℚ :=
    if total_votes = 0 then 0.5
    else
      let trust_frac : ℚ := (true_votes : ℚ) / (total_votes : ℚ)
      -- vote_weight = min(0.5, total_votes / 20.0)
      let vote_weight : ℚ := min 0.5 ((total_votes : ℚ) / 20)
      0.5 * (1 - vote_weight) + trust_frac * vote_weight
  let trust_contribution := signal.trust_score * TRUST_WEIGHT
  let hours_since := now - signal.timestamp
  let recency_contribution := max 0 (1 - hours_since / 48) * RECENCY_WEIGHT
  let severity_contribution := ((signal.severity : ℚ) / 5) * SEVERITY_WEIGHT
  let confidence := vote_confidence * VOTE_WEIGHT + trust_contribution +
    recency_contribution + severity_contribution
  max 0 (min 1 confidence)

/-- `ReportLifecycleService.update_status_from_votes`: always stores the
recomputed confidence; transitions status only with at least
`MIN_VOTES_FOR_STATUS_UPDATE` total votes, checking verification before
dispute, and only while still pending. -/
def update_status_from_votes (now : ℚ) (signal : Signal) : Signal :=
  let true_votes := signal.true_votes
  let false_votes := signal.false_votes
  let total_votes := true_votes + false_votes
  let confidence := calculate_confidence now signal true_votes false_votes
  let signal := { signal with confidence_score := confidence }
  if total_votes < MIN_VOTES_FOR_STATUS_UPDATE then signal
  else if signal.status = ReportStatus.pending ∧ VERIFY_THRESHOLD ≤ confidence then
    { signal with status := ReportStatus.verified, verified_at := some now }
  else if signal.status = ReportStatus.pending ∧
      DISPUTE_THRESHOLD ≤ (false_votes : ℚ) / (total_votes : ℚ) then
    { signal with status := ReportStatus.disputed, disputed_at := some now }
  else signal

/-- `ReportLifecycleService.remove_vote`.  The source decrements the tally,
deletes the vote row, and then calls
`TrustScoringService.revert_vote_from_signal`, which loads the same
SQLAlchemy session object and decrements the tally a second time before
re-deriving trust; the model reproduces that aliasing faithfully.  Afterwards
the confidence is recomputed and a verified/disputed status is rolled back to
pending (clearing both timestamps) when the total drops below
`MIN_VOTES_FOR_STATUS_UPDATE`.  The report-state part is split into the
three stages below, composed by `remove_vote_signal`; `remove_vote` adds
the vote lookup and deletion. -/
def remove_vote_decrement (was_true : Bool) (signal : Signal) : Signal :=
  if was_true then { signal with true_votes := signal.true_votes - 1 }
  else { signal with false_votes := signal.false_votes - 1 }

/-- The trust revert plus confidence recomputation of
`ReportLifecycleService.remove_vote` (the source lines after the vote row is
deleted). -/
def remove_vote_rescore (now : ℚ) (was_true : Bool) (signal : Signal) : Signal :=
  let signal :=
    TrustScoringService.revert_vote_from_signal was_true
      (remove_vote_decrement was_true signal)
  let conf := calculate_confidence now signal signal.true_votes signal.false_votes
  { signal with confidence_score := conf }

/-- The status-rollback stage of `ReportLifecycleService.remove_vote`:
verified/disputed reverts to pending, clearing both timestamps, when the
total vote count has dropped below `MIN_VOTES_FOR_STATUS_UPDATE`. -/
def remove_vote_rollback (signal : Signal) : Signal :=
  if (signal.status = ReportStatus.verified ∨ signal.status = ReportStatus.disputed)
      ∧ signal.true_votes + signal.false_votes < MIN_VOTES_FOR_STATUS_UPDATE then
    { signal with status := ReportStatus.pending,
                  verified_at := none, disputed_at := none }
  else signal

/-- The full report-state update of `ReportLifecycleService.remove_vote`. -/
def remove_vote_signal (now : ℚ) (was_true : Bool) (signal : Signal) : Signal :=
  { remove_vote_rollback (remove_vote_rescore now was_true signal) with
      last_activity_at := now }

/-- `ReportLifecycleService.remove_vote` proper: find the caller's vote,
delete it, and apply `remove_vote_signal` to the report. -/
def remove_vote (now : ℚ) (signal : Signal) (votes : List Vote)
    (uid : ℕ) : Option (Signal × List Vote) :=
  match votes.find? (fun v => v.user_id = uid) with
  | none => none
  | some vote =>
    some (remove_vote_signal now vote.is_true signal, votes.erase vote)

/-- Delete rejection reasons for `check_delete_permission`, following the
spec error taxonomy (all three are PermissionDenied category). -/
inductive DeleteError where
  | notOwner
  | protectedVerified
  | cooldownActive
deriving DecidableEq, Repr

/-- `DELETE_COOLDOWN_HOURS` (`app/services/report_lifecycle.py`). -/
def DELETE_COOLDOWN_HOURS : ℚ := 1

/-- `ReportLifecycleService.check_delete_permission`: ownership, then the
verified/high-confidence protection, then the deletion cooldown. -/
def check_delete_permission (now : ℚ) (signal : Signal) (uid : ℕ) :
    Option DeleteError :=
  if ¬ (signal.user_id = some uid) then some DeleteError.notOwner
  else if signal.status = ReportStatus.verified ∧ 0.7 ≤ signal.confidence_score then
    some DeleteError.protectedVerified
  else
    match signal.delete_cooldown_expires_at with
    | some c => if now < c then some DeleteError.cooldownActive else none
    | none => none

/-- `ReportLifecycleService.soft_delete_report`: permission check, then mark
deleted/invalid with a reset cooldown.  The associated vote rows are not
touched by the source function, so the model returns them unchanged. -/
def soft_delete_report (now : ℚ) (signal : Signal) (votes : List Vote)
    (uid : ℕ) : Except DeleteError (Signal × List Vote) :=
  match check_delete_permission now signal uid with
  | some e => Except.error e
  | none =>
    Except.ok ({ signal with
        status := ReportStatus.deleted,
        is_valid := false,
        deleted_by_owner := true,
        delete_cooldown_expires_at := some (now + DELETE_COOLDOWN_HOURS),
        last_activity_at := now }, votes)

/-- `ReportLifecycleService.check_and_expire_report`: past `expires_at` (and
not deleted) forces `expired`; otherwise an elapsed vote window expires a
still-pending report. -/
def check_and_expire_report (now : ℚ) (signal : Signal) : Signal :=
  if (match signal.expires_at with
      | some e => decide (e < now)
      | none => false)
      && !(decide (signal.status = ReportStatus.deleted)) then
    { signal with status := ReportStatus.expired }
  else if (match signal.vote_window_expires_at with
      | some w => decide (w < now)
      | none => false)
      && decide (signal.status = ReportStatus.pending) then
    { signal with status := ReportStatus.expired }
  else signal

/-- Membership in `ReportLifecycleService.get_reports_for_expiration`: a
report is selected when its vote window has closed while pending and valid,
or when its explicit `expires_at` is past, it is not deleted, and valid. -/
def selected_for_expiration (now : ℚ) (signal : Signal) : Bool :=
  (decide (signal.status = ReportStatus.pending)
      && (match signal.vote_window_expires_at with
          | some w => decide (w < now)
          | none => false)
      && signal.is_valid)
  || ((match signal.expires_at with
       | some e => decide (e < now)
       | none => false)
      && !(decide (signal.status = ReportStatus.deleted)) && signal.is_valid)

/-- `ReportLifecycleService.expire_reports_batch`: run
`check_and_expire_report` over every selected report. -/
def expire_reports_batch (now : ℚ) (signals : List Signal) : List Signal :=
  signals.map fun s =>
    if selected_for_expiration now s then check_and_expire_report now s else s

end ReportLifecycleService

namespace Routes

/-- The HTTP cast-vote handler `vote_on_report` (`app/routes/report.py`),
for an existing report.  It rejects only a duplicate vote (HTTP 400); when it
proceeds it stores the vote row and calls
`TrustScoringService.update_signal_trust_from_vote`, which increments the
tally and re-blends the trust score.  It performs no self-vote check, no
vote-window check, and no status update. -/
def vote_on_report (signal : Signal) (votes : List Vote) (uid : ℕ)
    (is_true : Bool) : Except Unit (Signal × List Vote) :=
  if ReportLifecycleService.has_user_voted votes uid then Except.error ()
  else
    Except.ok
      (TrustScoringService.update_signal_trust_from_vote is_true signal,
        votes ++ [{ user_id := uid, is_true := is_true }])

/-- The HTTP remove-vote handler (`app/routes/report.py`): looks up the
caller's vote, calls `TrustScoringService.revert_vote_from_signal` (the
single tally decrement on this path) and deletes the vote row. -/
def route_remove_vote (signal : Signal) (votes : List Vote) (uid : ℕ) :
    Except Unit (Signal × List Vote) :=
  match votes.find? (fun v => v.user_id = uid) with
  | none => Except.error ()
  | some vote =>
    Except.ok (TrustScoringService.revert_vote_from_signal vote.is_true signal,
      votes.erase vote)

/-- The HTTP delete handler `delete_report` (`app/routes/report.py`): after
an ownership check it deletes every vote row and hard-deletes the report row
itself (`db.delete(signal)`), returning what remains of the pair. -/
def delete_report (signal : Signal) (_votes : List Vote) (uid : ℕ) :
    Except Unit (Option Signal × List Vote) :=
  if ¬ (signal.user_id = some uid) then Except.error ()
  else Except.ok (none, [])

end Routes

namespace ExpirationService

/-- `ExpirationService.DECAY_HALF_LIFE_HOURS` (`app/services/expiration.py`). -/
def DECAY_HALF_LIFE_HOURS : ℝ := 12

/-- `ExpirationService.get_decay_factor`: `max(0.0, exp(-age_hours / 12))`. -/
noncomputable def get_decay_factor (age_hours : ℝ) : ℝ :=
  max 0 (Real.exp (-(age_hours / DECAY_HALF_LIFE_HOURS)))

/-- `ExpirationService.apply_decay_to_signal`, applied with an explicit decay
factor: the source multiplies `confidence_score` and `severity_weight` by
`get_decay_factor` (skipping fields whose stored value is falsy, i.e. `0`). -/
def apply_decay_to_signal (factor : ℚ) (signal : Signal) : Signal :=
  let signal :=
    if signal.confidence_score = 0 then signal
    else { signal with confidence_score := signal.confidence_score * factor }
  if signal.severity_weight = 0 then signal
  else { signal with severity_weight := signal.severity_weight * factor }

end ExpirationService

/-- One report-level operation of the vote/trust/confidence/decay cycle.
`decay` carries the decay factor applied by
`ExpirationService.apply_decay_to_signal`; for a report of nonnegative age
the source factor `get_decay_factor` lies in `[0, 1]`
(lemma `get_decay_factor_mem` below). -/
inductive SignalOp where
  | castVote (is_true : Bool)
  | removeVote (was_true : Bool)
  | recomputeTrust
  | recomputeConfidence (now : ℚ)
  | decay (factor : ℚ)
deriving DecidableEq, Repr

/-- Apply one operation to a report, each clause delegating to the embedded
service function. -/
def applyOp (op : SignalOp) (signal : Signal) : Signal :=
  match op with
  | SignalOp.castVote b => TrustScoringService.update_signal_trust_from_vote b signal
  | SignalOp.removeVote b => TrustScoringService.revert_vote_from_signal b signal
  | SignalOp.recomputeTrust => TrustScoringService.calculate_trust_score_from_signal signal
  | SignalOp.recomputeConfidence now =>
    let c := ReportLifecycleService.calculate_confidence now signal
      signal.true_votes signal.false_votes
    { signal with confidence_score := c }
  | SignalOp.decay f => ExpirationService.apply_decay_to_signal f signal

/-- Apply a sequence of operations, oldest first. -/
def applyOps (ops : List SignalOp) (signal : Signal) : Signal :=
  ops.foldl (fun s op => applyOp op s) signal

/-- Decay factors in a sequence are within `[0, 1]`; other operations are
unconstrained. -/
def decayFactorOk (op : SignalOp) : Prop :=
  match op with
  | SignalOp.decay f => 0 ≤ f ∧ f ≤ 1
  | _ => True

instance (op : SignalOp) : Decidable (decayFactorOk op) := by
  cases op <;> simp [decayFactorOk] <;> infer_instance

/-- The score invariant of the spec: trust in `[0.2, 1]`, confidence in
`[0, 1]`. -/
def ScoreInv (signal : Signal) : Prop :=
  0.2 ≤ signal.trust_score ∧ signal.trust_score ≤ 1
    ∧ 0 ≤ signal.confidence_score ∧ signal.confidence_score ≤ 1

instance (signal : Signal) : Decidable (ScoreInv signal) := by
  unfold ScoreInv; infer_instance

namespace PulseAggregationService

/-- `PulseAggregationService.DECAY_HALF_LIFE_HOURS`
(`app/services/pulse_aggregation.py`). -/
def DECAY_HALF_LIFE_HOURS : ℝ := 6

/-- `PulseAggregationService.AGGREGATION_WINDOW_HOURS`. -/
def AGGREGATION_WINDOW_HOURS : ℚ := 12

/-- `PulseAggregationService.MIN_PULSE_INTENSITY`. -/
def MIN_PULSE_INTENSITY : ℝ := 0.05

/-- `PulseAggregationService.SIGNAL_TYPE_WEIGHTS` (the enum is closed, so
the dictionary lookup with default 0.5 is an exhaustive match). -/
def signal_type_weight : SignalType → ℝ
  | SignalType.harassment => 1.0
  | SignalType.followed => 0.9
  | SignalType.suspicious_activity => 0.8
  | SignalType.unsafe_area => 0.7
  | SignalType.other => 0.5

/-- A report as consumed by `calculate_weighted_intensity`: the fields read
by the loop body, with the age in hours standing for
`now - report.timestamp`. -/
structure PulseReport where
  severity : ℕ
  trust_score : ℝ
  age_hours : ℝ
  signal_type : SignalType
  is_valid : Bool

/-- `PulseAggregationService.time_decay`:
`max(0.0, exp(-hours_since / DECAY_HALF_LIFE_HOURS))`. -/
noncomputable def time_decay (age_hours : ℝ) : ℝ :=
  max 0 (Real.exp (-(age_hours / DECAY_HALF_LIFE_HOURS)))

/-- The per-report weight of the `calculate_weighted_intensity` loop body:
`severity/5 * trust * decay * type_weight`. -/
noncomputable def report_weight (r : PulseReport) : ℝ :=
  ((r.severity : ℝ) / 5) * r.trust_score * time_decay r.age_hours *
    signal_type_weight r.signal_type

/-- The accumulation loop of `calculate_weighted_intensity`: running
`(weighted_sum, total_weight)`, skipping invalid reports and adding `1.0` to
the normalizer per valid report. -/
noncomputable def cwi_loop : List PulseReport → ℝ × ℝ → ℝ × ℝ
  | [], acc => acc
  | r :: rs, (ws, tw) =>
    cwi_loop rs (if r.is_valid then (ws + report_weight r, tw + 1) else (ws, tw))

/-- `PulseAggregationService.calculate_weighted_intensity`: weighted average
of report weights, a `* 1.1` boost (capped at 1) when the report list has at
least 5 entries, then the final `min(1.0, max(0.0, _))`. -/
noncomputable def calculate_weighted_intensity (reports : List PulseReport) : ℝ :=
  if reports.isEmpty then 0
  else
    let acc := cwi_loop reports (0, 0)
    if acc.2 = 0 then 0
    else
      let intensity := acc.1 / acc.2
      let intensity :=
        if 5 ≤ reports.length then min 1 (intensity * 1.1) else intensity
      min 1 (max 0 intensity)

/-- The per-tile step of `aggregate_pulse_tiles`: compute the weighted
intensity and skip the tile (`continue`) when it is below
`MIN_PULSE_INTENSITY`; otherwise the tile is upserted with that intensity. -/
noncomputable def aggregate_tile_intensity (reports : List PulseReport) : Option ℝ :=
  let intensity := calculate_weighted_intensity reports
  if intensity < MIN_PULSE_INTENSITY then none else some intensity

/-- Membership in the query of `aggregate_reports_per_tile`: the aggregation
input is every report with `timestamp > now - AGGREGATION_WINDOW_HOURS` and
`is_valid == True` (no condition on `expires_at` or `status`). -/
def aggregation_input (now : ℚ) (signal : Signal) : Bool :=
  decide (now - AGGREGATION_WINDOW_HOURS < signal.timestamp) && signal.is_valid

end PulseAggregationService

namespace PulseDecayService

/-- A pulse tile row (`class PulseTile`), restricted to the fields the decay
job reads and writes.  `last_updated` refreshes on every row update
(`onupdate=func.now()`). -/
structure Tile where
  intensity : ℚ
  last_updated : ℚ
  expires_at : Option ℚ
deriving DecidableEq, Repr

/-- `PulseDecayService.get_decay_factor_by_age`, as a function of the age in
hours. -/
def get_decay_factor_by_age (age_hours : ℚ) : ℚ :=
  if age_hours < 1 then 1
  else if age_hours < 6 then max 0.5 (1 - (age_hours - 1) * 0.1)
  else if age_hours < 12 then max 0.25 (0.5 - (age_hours - 6) * 0.042)
  else if age_hours < 48 then max 0.02 (0.25 - (age_hours - 12) * 0.007)
  else 0

/-- Membership in `get_active_pulses`: `expires_at` unset or in the
future. -/
def tile_active (now : ℚ) (t : Tile) : Bool :=
  match t.expires_at with
  | none => true
  | some e => decide (now < e)

/-- The per-tile body of `PulseDecayService.decay_pulses`: delete the tile
when the decay factor is at most `0.05`, otherwise multiply the intensity by
the factor and refresh `expires_at` (one hour ahead when the new intensity is
below `0.1`, else 24 hours). -/
def decay_tile (now : ℚ) (t : Tile) : Option Tile :=
  let decay_factor := get_decay_factor_by_age (now - t.last_updated)
  if decay_factor ≤ 0.05 then none
  else
    let intensity := t.intensity * decay_factor
    some { intensity := intensity, last_updated := now,
           expires_at := some (if intensity < 0.1 then now + 1 else now + 24) }

/-- `PulseDecayService.decay_pulses` over the whole tile table: tiles outside
`get_active_pulses` (those whose `expires_at` has passed) are not touched;
active tiles go through `decay_tile`. -/
def decay_pulses (now : ℚ) (tiles : List Tile) : List Tile :=
  tiles.filterMap fun t => if tile_active now t then decay_tile now t else some t

end PulseDecayService

/-- The confidence formula exactly as the claim words it: the vote-ratio
term is Bayesian-blended as in the §4.2 vote-derived trust formula, i.e.
with the observed ratio's weight growing to a 40% cap reached at 10 votes
(`min(0.4, total/10 * 0.4)`), the remainder staying on the 0.5 prior; the
other three terms and the final clamp are as in the source. -/
def confidence_claim_formula (now : ℚ) (signal : Signal)
    (true_votes false_votes : ℕ) : ℚ :=
  let total_votes := true_votes + false_votes
  let vote_confidence : ℚ :=
    if total_votes = 0 then 0.5
    else
      let trust_frac : ℚ := (true_votes : ℚ) / (total_votes : ℚ)
      let vote_weight : ℚ := min 0.4 ((total_votes : ℚ) / 10 * 0.4)
      0.5 * (1 - vote_weight) + trust_frac * vote_weight
  max 0 (min 1 (vote_confidence * 0.4 + signal.trust_score * 0.3
    + max 0 (1 - (now - signal.timestamp) / 48) * 0.2
    + ((signal.severity : ℚ) / 5) * 0.1))

/-- The confidence formula as the amended claim words it: 0.4 times a vote
term equal to the 0.5 prior moved toward the observed true-vote share by a
weight of 5 percentage points per vote, capped at 50% (the cap is reached
at 10 votes), plus 0.3 times the reporter trust, plus 0.2 times a recency
term decaying linearly to 0 over 48 hours, plus 0.1 times severity/5,
clamped to `[0, 1]`. -/
def confidence_amended_formula (now : ℚ) (signal : Signal)
    (true_votes false_votes : ℕ) : ℚ :=
  let total_votes := true_votes + false_votes
  let w : ℚ := min 0.5 ((total_votes : ℚ) * 0.05)
  let vote_term : ℚ :=
    if total_votes = 0 then 0.5
    else 0.5 + w * ((true_votes : ℚ) / (total_votes : ℚ) - 0.5)
  min 1 (max 0 (0.4 * vote_term + 0.3 * signal.trust_score
    + 0.2 * max 0 (1 - (now - signal.timestamp) / 48)
    + 0.1 * ((signal.severity : ℚ) / 5)))

/-! Concrete example inputs used by witnesses and counterexamples. -/

/-- A concrete report used by the C1 witness. -/
def c1_signal : Signal :=
  ⟨0.5, 0.5, 0, 0, 3, SignalType.other, ReportStatus.pending, some 7, 0, true,
    0.6, some 72, some 24, none, none, none, false, 0⟩

/-- A concrete pre-vote report for the C2 counterexample. -/
def c2_signal : Signal :=
  ⟨0.2, 0.5, 0, 0, 3, SignalType.other, ReportStatus.pending, some 7, 0, true,
    0.6, some 72, some 24, none, none, none, false, 0⟩

/-- A concrete report owned by user 7, pending, inside its vote window,
used for the C3 failing input. -/
def c3_signal : Signal :=
  ⟨0.5, 0.5, 0, 0, 3, SignalType.other, ReportStatus.pending, some 7, 0, true,
    0.6, some 72, some 24, none, none, none, false, 0⟩

/-- A concrete pending report with 3 true votes, full trust, severity 5,
fresh: its recomputed confidence is 0.83. -/
def c4_signal : Signal :=
  ⟨1, 0.5, 3, 0, 5, SignalType.harassment, ReportStatus.pending, some 7, 0,
    true, 1, some 72, some 24, none, none, none, false, 0⟩

/-- A concrete report (trust 0.5, severity 5, fresh) on which the source
confidence and the claim's 40%-cap formula disagree at 2 true votes. -/
def c5_signal : Signal :=
  ⟨0.5, 0.5, 2, 0, 5, SignalType.other, ReportStatus.pending, some 7, 0, true,
    1, some 72, some 24, none, none, none, false, 0⟩

/-- A concrete deletable report: owned by user 7, pending, confidence 0.5,
no active deletion cooldown, one vote on record. -/
def c6_signal : Signal :=
  ⟨0.5, 0.5, 1, 0, 3, SignalType.other, ReportStatus.pending, some 7, 0, true,
    0.6, some 72, some 24, none, none, none, false, 0⟩

/-- The single vote on `c6_signal`, cast by user 9. -/
def c6_vote : Vote := ⟨9, true⟩

/-- The expected state of `c6_signal` after its owner soft-deletes it at
hour 5. -/
def c6_deleted : Signal :=
  { c6_signal with
      status := ReportStatus.deleted
      is_valid := false
      deleted_by_owner := true
      delete_cooldown_expires_at := some 6
      last_activity_at := 5 }

/-- A concrete valid pulse report: severity 5, trust 1, age 0,
harassment. -/
noncomputable def c7_report : PulseAggregationService.PulseReport :=
  ⟨5, 1, 0, SignalType.harassment, true⟩

/-- A concrete valid pending report created at hour 100 whose `expires_at`
(hour 99) already lies in the past. -/
def c9_signal : Signal :=
  ⟨0.5, 0.5, 0, 0, 3, SignalType.other, ReportStatus.pending, some 7, 100, true,
    0.6, some 172, some 99, none, none, none, false, 100⟩

/-- A concrete pending report with 7 true and 3 false votes, full trust,
severity 5, fresh: confidence 0.84 and downvote share 0.3 hold
simultaneously. -/
def c10_signal : Signal :=
  ⟨1, 0.5, 7, 3, 5, SignalType.harassment, ReportStatus.pending, some 7, 0,
    true, 1, some 72, some 24, none, none, none, false, 0⟩

/-! Helper lemmas shared by the claim theorems. -/

theorem cwi_loop_all_valid (l : List PulseAggregationService.PulseReport)
    (a b : ℝ) (h : ∀ r ∈ l, r.is_valid = true) :
    PulseAggregationService.cwi_loop l (a, b)
      = (a + (l.map PulseAggregationService.report_weight).sum,
          b + l.length) := by
  induction l generalizing a b with
  | nil => simp [PulseAggregationService.cwi_loop]
  | cons r rs ih =>
    have hr : r.is_valid = true := h r (List.mem_cons_self _ _)
    simp only [PulseAggregationService.cwi_loop, hr, if_true]
    rw [ih _ _ fun x hx => h x (List.mem_cons_of_mem _ hx)]
    simp only [List.map_cons, List.sum_cons, List.length_cons, Prod.mk.injEq]
    constructor <;> push_cast <;> ring

theorem clamp_trust_score_mem (x : ℚ) :
    0.2 ≤ TrustScoringService.clamp_trust_score x
      ∧ TrustScoringService.clamp_trust_score x ≤ 1 := by
  unfold TrustScoringService.clamp_trust_score TrustScoringService.MIN_TRUST_SCORE
    TrustScoringService.MAX_TRUST_SCORE
  exact ⟨le_max_left _ _,
    max_le (by norm_num) ((min_le_left _ _).trans (by norm_num))⟩

theorem calculate_verification_based_trust_mem (tv fv : ℕ) (b : ℚ) :
    0.2 ≤ TrustScoringService.calculate_verification_based_trust tv fv b
      ∧ TrustScoringService.calculate_verification_based_trust tv fv b ≤ 1 := by
  unfold TrustScoringService.calculate_verification_based_trust
  dsimp only
  split_ifs <;> exact clamp_trust_score_mem _

theorem calculate_confidence_mem (now : ℚ) (s : Signal) (tv fv : ℕ) :
    0 ≤ ReportLifecycleService.calculate_confidence now s tv fv
      ∧ ReportLifecycleService.calculate_confidence now s tv fv ≤ 1 := by
  unfold ReportLifecycleService.calculate_confidence
  exact ⟨le_max_left _ _, max_le (by norm_num) (min_le_left _ _)⟩

/-- The decay factor of `ExpirationService.get_decay_factor` lies in `[0, 1]`
for every report of nonnegative age; this justifies restricting the
`SignalOp.decay` factor to `[0, 1]`. -/
theorem get_decay_factor_mem (a : ℝ) (ha : 0 ≤ a) :
    0 ≤ ExpirationService.get_decay_factor a
      ∧ ExpirationService.get_decay_factor a ≤ 1 := by
  unfold ExpirationService.get_decay_factor ExpirationService.DECAY_HALF_LIFE_HOURS
  refine ⟨le_max_left _ _, max_le (by norm_num) ?_⟩
  have h : Real.exp (-(a / 12)) ≤ Real.exp 0 :=
    Real.exp_le_exp.mpr (neg_nonpos.mpr (by positivity))
  simpa [Real.exp_zero] using h

theorem applyOp_scoreInv {op : SignalOp} {s : Signal}
    (hop : decayFactorOk op) (hs : ScoreInv s) : ScoreInv (applyOp op s) := by
  obtain ⟨ht1, ht2, hc1, hc2⟩ := hs
  cases op with
  | castVote b =>
    cases b <;>
      exact ⟨(clamp_trust_score_mem _).1, (clamp_trust_score_mem _).2, hc1, hc2⟩
  | removeVote b =>
    cases b <;>
      exact ⟨(clamp_trust_score_mem _).1, (clamp_trust_score_mem _).2, hc1, hc2⟩
  | recomputeTrust =>
    exact ⟨(calculate_verification_based_trust_mem _ _ _).1,
      (calculate_verification_based_trust_mem _ _ _).2, hc1, hc2⟩
  | recomputeConfidence now =>
    exact ⟨ht1, ht2, (calculate_confidence_mem _ _ _ _).1,
      (calculate_confidence_mem _ _ _ _).2⟩
  | decay f =>
    obtain ⟨hf1, hf2⟩ := hop
    have key : ScoreInv (if s.confidence_score = 0 then s
        else { s with confidence_score := s.confidence_score * f }) := by
      split
      · exact ⟨ht1, ht2, hc1, hc2⟩
      · exact ⟨ht1, ht2, mul_nonneg hc1 hf1, mul_le_one₀ hc2 hf1 hf2⟩
    have main : ∀ s1 : Signal, ScoreInv s1 →
        ScoreInv (if s1.severity_weight = 0 then s1
          else { s1 with severity_weight := s1.severity_weight * f }) := by
      intro s1 h1
      split
      · exact h1
      · exact ⟨h1.1, h1.2.1, h1.2.2.1, h1.2.2.2⟩
    show ScoreInv (ExpirationService.apply_decay_to_signal f s)
    unfold ExpirationService.apply_decay_to_signal
    exact main _ key

theorem applyOps_cons (op : SignalOp) (ops : List SignalOp) (s : Signal) :
    applyOps (op :: ops) s = applyOps ops (applyOp op s) := rfl

theorem remove_vote_rollback_tallies (x : Signal) :
    (ReportLifecycleService.remove_vote_rollback x).true_votes = x.true_votes
    ∧ (ReportLifecycleService.remove_vote_rollback x).false_votes = x.false_votes := by
  unfold ReportLifecycleService.remove_vote_rollback
  split <;> exact ⟨rfl, rfl⟩

theorem remove_vote_rollback_spec (x : Signal)
    (hstat : x.status = ReportStatus.verified ∨ x.status = ReportStatus.disputed)
    (hlt : x.true_votes + x.false_votes < 3) :
    (ReportLifecycleService.remove_vote_rollback x).status = ReportStatus.pending
    ∧ (ReportLifecycleService.remove_vote_rollback x).verified_at = none
    ∧ (ReportLifecycleService.remove_vote_rollback x).disputed_at = none := by
  unfold ReportLifecycleService.remove_vote_rollback
  rw [if_pos ⟨hstat, hlt⟩]
  exact ⟨rfl, rfl, rfl⟩

theorem remove_vote_rescore_status (now : ℚ) (b : Bool) (s : Signal) :
    (ReportLifecycleService.remove_vote_rescore now b s).status = s.status := by
  cases b <;> rfl

theorem remove_vote_signal_rollback (now : ℚ) (b : Bool) (s : Signal)
    (hstat : s.status = ReportStatus.verified ∨ s.status = ReportStatus.disputed)
    (hlt : (ReportLifecycleService.remove_vote_signal now b s).true_votes
        + (ReportLifecycleService.remove_vote_signal now b s).false_votes < 3) :
    (ReportLifecycleService.remove_vote_signal now b s).status = ReportStatus.pending
    ∧ (ReportLifecycleService.remove_vote_signal now b s).verified_at = none
    ∧ (ReportLifecycleService.remove_vote_signal now b s).disputed_at = none := by
  have h1 :=
    remove_vote_rollback_tallies (ReportLifecycleService.remove_vote_rescore now b s)
  have hl : (ReportLifecycleService.remove_vote_rescore now b s).true_votes
      + (ReportLifecycleService.remove_vote_rescore now b s).false_votes < 3 := by
    simpa [ReportLifecycleService.remove_vote_signal, h1.1, h1.2] using hlt
  have hs2 : (ReportLifecycleService.remove_vote_rescore now b s).status
      = ReportStatus.verified
      ∨ (ReportLifecycleService.remove_vote_rescore now b s).status
        = ReportStatus.disputed := by
    rw [remove_vote_rescore_status]; exact hstat
  have h3 := remove_vote_rollback_spec _ hs2 hl
  exact ⟨h3.1, h3.2.1, h3.2.2⟩

/-! ## Claim theorems -/

/-- C1: for every safety report, after any sequence of operations (vote
cast, vote removal, trust recomputation, confidence recomputation, periodic
decay), the trust score lies in `[0.2, 1.0]` and the confidence score in
`[0.0, 1.0]`.  Each `SignalOp.decay` carries its factor; by
`get_decay_factor_mem`, the factor the source computes is in `[0, 1]` for
every report of nonnegative age, which is the `decayFactorOk` hypothesis. -/
theorem C1_score_bounds_invariant (ops : List SignalOp) (s : Signal)
    (hops : ∀ op ∈ ops, decayFactorOk op) (hs : ScoreInv s) :
    ScoreInv (applyOps ops s) := by
  induction ops generalizing s with
  | nil => exact hs
  | cons op rest ih =>
    rw [applyOps_cons]
    exact ih _ (fun o ho => hops o (List.mem_cons_of_mem _ ho))
      (applyOp_scoreInv (hops op (List.mem_cons_self _ _)) hs)

/-- Witness for C1: a concrete report and operation sequence. -/
theorem C1_score_bounds_invariant_witness :
    ScoreInv (applyOps [SignalOp.castVote true, SignalOp.decay (1/2),
      SignalOp.recomputeConfidence 3, SignalOp.removeVote true] c1_signal) := by
  apply C1_score_bounds_invariant
  · intro op hop
    fin_cases hop
    · trivial
    · exact ⟨by norm_num, by norm_num⟩
    · trivial
    · trivial
  · refine ⟨?_, ?_, ?_, ?_⟩ <;> norm_num [c1_signal]

/-- C2 (amended): casting a vote and then removing that same vote — the
tally increment plus 60/40 trust re-blend of
`update_signal_trust_from_vote`, followed by the decrement plus re-blend of
`revert_vote_from_signal`, the pair used by the vote endpoints — restores
the true/false tallies to their pre-vote values; the trust score (and hence
the confidence derived from it) is re-blended on each step and in general
does not return to its pre-vote value (see the counterexample). -/
theorem C2_tallies_roundtrip (s : Signal) (b : Bool) :
    (TrustScoringService.revert_vote_from_signal b
        (TrustScoringService.update_signal_trust_from_vote b s)).true_votes
      = s.true_votes
    ∧ (TrustScoringService.revert_vote_from_signal b
        (TrustScoringService.update_signal_trust_from_vote b s)).false_votes
      = s.false_votes := by
  cases b <;>
    simp [TrustScoringService.revert_vote_from_signal,
      TrustScoringService.update_signal_trust_from_vote]

/-- C2 counterexample: on a report with trust 0.2 and no votes, casting a
true vote and then removing it leaves trust at 0.3968 — 0.1968 above the
pre-vote value, far beyond floating-point tolerance — because both
operations blend 60% of the stored trust with 40% of the recomputed
vote-derived trust instead of inverting each other. -/
theorem C2_trust_not_restored :
    (TrustScoringService.revert_vote_from_signal true
        (TrustScoringService.update_signal_trust_from_vote true
          c2_signal)).trust_score = 0.3968
    ∧ c2_signal.trust_score = 0.2
    ∧ (0.1 : ℚ) <
        (TrustScoringService.revert_vote_from_signal true
            (TrustScoringService.update_signal_trust_from_vote true
              c2_signal)).trust_score - c2_signal.trust_score := by
  refine ⟨?_, rfl, ?_⟩ <;>
    norm_num [TrustScoringService.revert_vote_from_signal,
      TrustScoringService.update_signal_trust_from_vote,
      TrustScoringService.calculate_verification_based_trust,
      TrustScoringService.clamp_trust_score, TrustScoringService.MIN_TRUST_SCORE,
      TrustScoringService.MAX_TRUST_SCORE, c2_signal, min_def, max_def]

/-- C3: the claimed rejection rules exist in
`ReportLifecycleService.check_vote_permission` — at this state the self-vote
is rejected with the PermissionDenied reason — but the cast-vote HTTP
handler `vote_on_report` never invokes them: at the same state (owner 7
voting on their own pending report at hour 1, inside the 72-hour window) it
records the vote and increments the tallies, blending trust to 0.508. -/
theorem C3_route_skips_permission_checks :
    ReportLifecycleService.check_vote_permission 1 c3_signal [] 7
      = some ReportLifecycleService.VoteError.permissionDenied
    ∧ Routes.vote_on_report c3_signal [] 7 true
      = Except.ok ({ c3_signal with true_votes := 1, trust_score := 0.508 },
          [{ user_id := 7, is_true := true }]) := by
  constructor
  · simp [ReportLifecycleService.check_vote_permission,
      ReportLifecycleService.has_user_voted,
      ReportLifecycleService.can_accept_votes, c3_signal]
  · simp [Routes.vote_on_report, ReportLifecycleService.has_user_voted,
      TrustScoringService.update_signal_trust_from_vote,
      TrustScoringService.calculate_verification_based_trust,
      TrustScoringService.clamp_trust_score, TrustScoringService.MIN_TRUST_SCORE,
      TrustScoringService.MAX_TRUST_SCORE, c3_signal, min_def, max_def]
    norm_num

/-- C4: vote-driven status changes follow the state-machine rule.  With
fewer than 3 total votes the status is untouched; a pending report with
recomputed confidence at least 0.7 becomes verified; a pending report
failing verification but with downvote share at least 0.3 becomes disputed
(the verification check runs first, per the source order); verified and
disputed reports are not re-evaluated; and a vote removal that leaves a
verified or disputed report below 3 total votes reverts it to pending with
both timestamps cleared. -/
theorem C4_status_state_machine (now : ℚ) (s : Signal) (votes : List Vote)
    (uid : ℕ) :
    (s.true_votes + s.false_votes < 3 →
      (ReportLifecycleService.update_status_from_votes now s).status = s.status)
    ∧ (s.status = ReportStatus.pending → 3 ≤ s.true_votes + s.false_votes →
        0.7 ≤ ReportLifecycleService.calculate_confidence now s
          s.true_votes s.false_votes →
        (ReportLifecycleService.update_status_from_votes now s).status
          = ReportStatus.verified)
    ∧ (s.status = ReportStatus.pending → 3 ≤ s.true_votes + s.false_votes →
        ReportLifecycleService.calculate_confidence now s
          s.true_votes s.false_votes < 0.7 →
        0.3 ≤ (s.false_votes : ℚ) / ((s.true_votes + s.false_votes : ℕ) : ℚ) →
        (ReportLifecycleService.update_status_from_votes now s).status
          = ReportStatus.disputed)
    ∧ (s.status = ReportStatus.verified ∨ s.status = ReportStatus.disputed →
        (ReportLifecycleService.update_status_from_votes now s).status = s.status)
    ∧ (∀ s2 votes2,
        ReportLifecycleService.remove_vote now s votes uid = some (s2, votes2) →
        s.status = ReportStatus.verified ∨ s.status = ReportStatus.disputed →
        s2.true_votes + s2.false_votes < 3 →
        s2.status = ReportStatus.pending
          ∧ s2.verified_at = none ∧ s2.disputed_at = none) := by
  refine ⟨?_, ?_, ?_, ?_, ?_⟩
  · intro h
    unfold ReportLifecycleService.update_status_from_votes
    simp only [ReportLifecycleService.MIN_VOTES_FOR_STATUS_UPDATE,
      ReportLifecycleService.VERIFY_THRESHOLD,
      ReportLifecycleService.DISPUTE_THRESHOLD]
    rw [if_pos h]
  · intro hp h3 hconf
    unfold ReportLifecycleService.update_status_from_votes
    simp only [ReportLifecycleService.MIN_VOTES_FOR_STATUS_UPDATE,
      ReportLifecycleService.VERIFY_THRESHOLD,
      ReportLifecycleService.DISPUTE_THRESHOLD]
    rw [if_neg (Nat.not_lt.mpr h3), if_pos ⟨hp, hconf⟩]
  · intro hp h3 hclt hfrac
    unfold ReportLifecycleService.update_status_from_votes
    simp only [ReportLifecycleService.MIN_VOTES_FOR_STATUS_UPDATE,
      ReportLifecycleService.VERIFY_THRESHOLD,
      ReportLifecycleService.DISPUTE_THRESHOLD]
    rw [if_neg (Nat.not_lt.mpr h3),
      if_neg (fun hh => absurd hh.2 (not_le.mpr hclt)), if_pos ⟨hp, hfrac⟩]
  · intro hvd
    have hnp : ¬ (s.status = ReportStatus.pending) := by
      rcases hvd with h | h <;> simp [h]
    unfold ReportLifecycleService.update_status_from_votes
    dsimp only
    rw [if_neg (fun hh : _ ∧ _ => hnp hh.1), if_neg (fun hh : _ ∧ _ => hnp hh.1)]
    split <;> rfl
  · intro s2 votes2 hrm hstat hlt
    unfold ReportLifecycleService.remove_vote at hrm
    cases hfind : votes.find? (fun v => v.user_id = uid) with
    | none => rw [hfind] at hrm; simp at hrm
    | some v =>
      rw [hfind] at hrm
      simp only [Option.some.injEq, Prod.mk.injEq] at hrm
      obtain ⟨rfl, rfl⟩ := hrm
      exact remove_vote_signal_rollback now v.is_true s hstat hlt

/-- Witness for C4: the verification transition fires on `c4_signal`. -/
theorem C4_status_state_machine_witness :
    (ReportLifecycleService.update_status_from_votes 0 c4_signal).status
      = ReportStatus.verified :=
  (C4_status_state_machine 0 c4_signal [] 0).2.1 rfl (by norm_num [c4_signal])
    (by norm_num [ReportLifecycleService.calculate_confidence,
      ReportLifecycleService.VOTE_WEIGHT, ReportLifecycleService.TRUST_WEIGHT,
      ReportLifecycleService.RECENCY_WEIGHT,
      ReportLifecycleService.SEVERITY_WEIGHT, c4_signal, min_def, max_def])

/-- C5 counterexample: at 2 true votes, 0 false votes, trust 0.5,
severity 5 and zero age, the source confidence is 0.67 (its vote weight is
`min(0.5, total/20) = 0.1`) while the claim's formula — the vote-ratio term
blended exactly as in the §4.2 trust formula, with the 40% cap reached at
10 votes, weight `min(0.4, total/10*0.4) = 0.08` — yields 0.666. -/
theorem C5_vote_weight_mismatch :
    ReportLifecycleService.calculate_confidence 0 c5_signal 2 0 = 0.67
    ∧ confidence_claim_formula 0 c5_signal 2 0 = 0.666
    ∧ ¬ (ReportLifecycleService.calculate_confidence 0 c5_signal 2 0
        = confidence_claim_formula 0 c5_signal 2 0) := by
  refine ⟨?_, ?_, ?_⟩ <;>
    norm_num [ReportLifecycleService.calculate_confidence,
      confidence_claim_formula, ReportLifecycleService.VOTE_WEIGHT,
      ReportLifecycleService.TRUST_WEIGHT, ReportLifecycleService.RECENCY_WEIGHT,
      ReportLifecycleService.SEVERITY_WEIGHT, c5_signal, min_def, max_def]

/-- C5 (amended): the confidence recomputed on every vote equals 0.4 times
a vote term that moves the 0.5 prior toward the observed true-vote share
with a weight of 5 percentage points per vote capped at 50% (reached at 10
votes — not the §4.2 trust blend, whose cap is 40%), plus 0.3 times the
reporter's trust, plus 0.2 times a recency term decaying linearly to 0 over
48 hours, plus 0.1 times severity/5, clamped to `[0, 1]`. -/
theorem C5_confidence_formula (now : ℚ) (s : Signal) (tv fv : ℕ) :
    ReportLifecycleService.calculate_confidence now s tv fv
      = confidence_amended_formula now s tv fv := by
  have hcomm : ∀ x : ℚ, max 0 (min 1 x) = min 1 (max 0 x) := fun x => by
    rw [max_min_distrib_left]; norm_num
  unfold ReportLifecycleService.calculate_confidence confidence_amended_formula
    ReportLifecycleService.VOTE_WEIGHT ReportLifecycleService.TRUST_WEIGHT
    ReportLifecycleService.RECENCY_WEIGHT ReportLifecycleService.SEVERITY_WEIGHT
  dsimp only
  rw [hcomm]
  congr 1
  congr 1
  have hw : ((tv + fv : ℕ) : ℚ) / 20 = ((tv + fv : ℕ) : ℚ) * 0.05 := by ring
  by_cases h : tv + fv = 0
  · rw [if_pos h, if_pos h]; ring
  · rw [if_neg h, if_neg h, hw]; ring

/-- C6 (amended): owner deletion through the lifecycle service fails when
the caller is not the owner, when the report is verified with confidence at
least 0.7, or when the owner is still inside the 1-hour deletion cooldown;
a successful owner deletion marks the report deleted and invalid but
retains the record — and also retains the associated votes, which
`soft_delete_report` never touches (the claim's "removes the associated
votes" is refuted by the counterexample; only the HTTP route, which skips
all these checks and hard-deletes the row, removes votes). -/
theorem C6_soft_delete_rules (now : ℚ) (s : Signal) (votes : List Vote)
    (uid : ℕ) :
    (¬ (s.user_id = some uid) →
      ReportLifecycleService.soft_delete_report now s votes uid
        = Except.error ReportLifecycleService.DeleteError.notOwner)
    ∧ (s.user_id = some uid → s.status = ReportStatus.verified →
        0.7 ≤ s.confidence_score →
        ReportLifecycleService.soft_delete_report now s votes uid
          = Except.error ReportLifecycleService.DeleteError.protectedVerified)
    ∧ (s.user_id = some uid →
        ¬ (s.status = ReportStatus.verified ∧ 0.7 ≤ s.confidence_score) →
        ∀ c, s.delete_cooldown_expires_at = some c → now < c →
        ReportLifecycleService.soft_delete_report now s votes uid
          = Except.error ReportLifecycleService.DeleteError.cooldownActive)
    ∧ (∀ s2 votes2,
        ReportLifecycleService.soft_delete_report now s votes uid
          = Except.ok (s2, votes2) →
        s2.status = ReportStatus.deleted ∧ s2.is_valid = false
          ∧ s2.deleted_by_owner = true ∧ votes2 = votes
          ∧ s2.true_votes = s.true_votes ∧ s2.false_votes = s.false_votes) := by
  refine ⟨?_, ?_, ?_, ?_⟩
  · intro h
    unfold ReportLifecycleService.soft_delete_report
      ReportLifecycleService.check_delete_permission
    rw [if_pos h]
  · intro how hv hc
    unfold ReportLifecycleService.soft_delete_report
      ReportLifecycleService.check_delete_permission
    rw [if_neg (not_not_intro how), if_pos ⟨hv, hc⟩]
  · intro how hnp c hcd hlt
    unfold ReportLifecycleService.soft_delete_report
      ReportLifecycleService.check_delete_permission
    rw [if_neg (not_not_intro how), if_neg hnp, hcd]
    dsimp only
    rw [if_pos hlt]
  · intro s2 votes2 hok
    unfold ReportLifecycleService.soft_delete_report at hok
    cases hchk : ReportLifecycleService.check_delete_permission now s uid with
    | some e => rw [hchk] at hok; simp at hok
    | none =>
      rw [hchk] at hok
      simp only [Except.ok.injEq, Prod.mk.injEq] at hok
      obtain ⟨rfl, rfl⟩ := hok
      exact ⟨rfl, rfl, rfl, rfl, rfl, rfl⟩

/-- Witness for C6: user 7 soft-deletes their own pending report `c6_signal`
at hour 5; the report is marked deleted and invalid, the record and the one
existing vote are retained, the tallies untouched. -/
theorem C6_soft_delete_rules_witness :
    c6_deleted.status = ReportStatus.deleted ∧ c6_deleted.is_valid = false
      ∧ c6_deleted.deleted_by_owner = true
      ∧ ([c6_vote] : List Vote) = [c6_vote]
      ∧ c6_deleted.true_votes = c6_signal.true_votes
      ∧ c6_deleted.false_votes = c6_signal.false_votes :=
  (C6_soft_delete_rules 5 c6_signal [c6_vote] 7).2.2.2 c6_deleted [c6_vote]
    (by norm_num [ReportLifecycleService.soft_delete_report,
      ReportLifecycleService.check_delete_permission,
      ReportLifecycleService.DELETE_COOLDOWN_HOURS, c6_signal, c6_deleted])

/-- C6 counterexample: a successful owner deletion does not remove the
associated votes — soft-deleting `c6_signal`, which carries one vote,
succeeds and returns the vote list unchanged and nonempty. -/
theorem C6_votes_not_removed :
    ReportLifecycleService.soft_delete_report 5 c6_signal [c6_vote] 7
      = Except.ok (c6_deleted, [c6_vote])
    ∧ ([c6_vote] : List Vote) ≠ [] := by
  constructor
  · norm_num [ReportLifecycleService.soft_delete_report,
      ReportLifecycleService.check_delete_permission,
      ReportLifecycleService.DELETE_COOLDOWN_HOURS, c6_signal, c6_deleted]
  · simp

/-- C7: over a tile whose contributing reports are all valid (as guaranteed
by the aggregation query, which selects only `is_valid` rows), the computed
intensity equals the average over the reports of
`severity/5 * trust_score * exp(-age_hours/6) * category_weight`, times 1.1
when at least 5 reports contribute, clamped to `[0, 1]`; the category
weights are harassment 1.0, followed 0.9, suspicious_activity 0.8,
unsafe_area 0.7, other 0.5; and a tile whose computed intensity is below
0.05 is not created or updated. -/
theorem C7_tile_intensity (reports : List PulseAggregationService.PulseReport)
    (hval : ∀ r ∈ reports, r.is_valid = true) (hne : reports ≠ []) :
    (PulseAggregationService.calculate_weighted_intensity reports
      = min 1 (max 0 ((if 5 ≤ reports.length then (1.1 : ℝ) else 1) *
          ((reports.map fun r => ((r.severity : ℝ) / 5) * r.trust_score
              * Real.exp (-(r.age_hours / 6))
              * PulseAggregationService.signal_type_weight r.signal_type).sum
            / (reports.length : ℝ)))))
    ∧ PulseAggregationService.signal_type_weight SignalType.harassment = 1
    ∧ PulseAggregationService.signal_type_weight SignalType.followed = 0.9
    ∧ PulseAggregationService.signal_type_weight SignalType.suspicious_activity
        = 0.8
    ∧ PulseAggregationService.signal_type_weight SignalType.unsafe_area = 0.7
    ∧ PulseAggregationService.signal_type_weight SignalType.other = 0.5
    ∧ (PulseAggregationService.calculate_weighted_intensity reports < 0.05 →
        PulseAggregationService.aggregate_tile_intensity reports = none)
    ∧ (¬ (PulseAggregationService.calculate_weighted_intensity reports < 0.05) →
        PulseAggregationService.aggregate_tile_intensity reports
          = some (PulseAggregationService.calculate_weighted_intensity reports)) := by
  have hcomm : ∀ y : ℝ, max 0 (min 1 y) = min 1 (max 0 y) := fun y => by
    rw [max_min_distrib_left]; norm_num
  have hwfun : PulseAggregationService.report_weight
      = fun r => ((r.severity : ℝ) / 5) * r.trust_score
          * Real.exp (-(r.age_hours / 6))
          * PulseAggregationService.signal_type_weight r.signal_type := by
    funext r
    unfold PulseAggregationService.report_weight
      PulseAggregationService.time_decay
      PulseAggregationService.DECAY_HALF_LIFE_HOURS
    rw [max_eq_right (Real.exp_pos _).le]
  refine ⟨?_, by norm_num [PulseAggregationService.signal_type_weight],
    by norm_num [PulseAggregationService.signal_type_weight],
    by norm_num [PulseAggregationService.signal_type_weight],
    by norm_num [PulseAggregationService.signal_type_weight],
    by norm_num [PulseAggregationService.signal_type_weight], ?_, ?_⟩
  · have hne2 : reports.isEmpty = false := by
      cases reports with
      | nil => exact absurd rfl hne
      | cons a l => rfl
    have hlen0 : reports.length ≠ 0 := by
      simpa [List.length_eq_zero] using hne
    have hlenR : ¬ ((0 : ℝ) + (reports.length : ℝ) = 0) := by
      rw [zero_add]
      exact Nat.cast_ne_zero.mpr hlen0
    unfold PulseAggregationService.calculate_weighted_intensity
    rw [if_neg (by simp [hne2])]
    dsimp only
    rw [cwi_loop_all_valid reports 0 0 hval]
    dsimp only
    rw [if_neg hlenR, zero_add, zero_add, hwfun]
    by_cases hb : 5 ≤ reports.length
    · rw [if_pos hb, if_pos hb, hcomm, ← min_assoc, min_self]
      congr 1
      congr 1
      ring
    · rw [if_neg hb, if_neg hb, one_mul]
  · intro h
    unfold PulseAggregationService.aggregate_tile_intensity
      PulseAggregationService.MIN_PULSE_INTENSITY
    dsimp only
    rw [if_pos h]
  · intro h
    unfold PulseAggregationService.aggregate_tile_intensity
      PulseAggregationService.MIN_PULSE_INTENSITY
    dsimp only
    rw [if_neg h]

/-- Witness for C7: the theorem applied to the singleton valid report list
`[c7_report]`, extracting the harassment category weight. -/
theorem C7_tile_intensity_witness :
    PulseAggregationService.signal_type_weight SignalType.harassment = 1 :=
  (C7_tile_intensity [c7_report]
    (by
      intro r hr
      rw [List.mem_singleton] at hr
      subst hr
      rfl)
    (by simp)).2.1

/-- C8 counterexample: the decay job does not delete tiles by decayed
intensity.  A tile of intensity 0.04 untouched for 2 hours (still inside its
`expires_at`) has decay factor 0.9; its decayed intensity 0.036 is at or
below the 0.05 cutoff, yet the tile is kept (updated in place), because the
deletion test compares the decay factor, not the intensity, with 0.05. -/
theorem C8_intensity_cutoff_not_applied :
    PulseDecayService.decay_pulses 2 [⟨0.04, 0, some 24⟩]
      = [⟨0.036, 2, some 3⟩]
    ∧ ((0.036 : ℚ) ≤ 0.05) := by
  constructor
  · norm_num [PulseDecayService.decay_pulses, PulseDecayService.tile_active,
      PulseDecayService.decay_tile, PulseDecayService.get_decay_factor_by_age,
      List.filterMap_cons, List.filterMap_nil, min_def, max_def]
  · norm_num

/-- C8 (amended): over its active-tile snapshot (tiles whose `expires_at`
is unset or in the future) the decay job multiplies each tile's intensity
by the age-bucket factor — 1 under 1 hour, fading linearly toward 50% over
1–6 hours (never below 0.5 there), toward 25% over 6–12 hours, toward 0.02
over 12–48 hours, and 0 beyond 48 hours — and deletes a tile exactly when
that factor is at most 0.05, regardless of the resulting intensity; tiles
whose `expires_at` has already passed are left untouched by this job.  In
particular a 3-hour-old active tile keeps 80% ≥ 50% of its intensity, and a
tile untouched for at least 48 hours (such as one 50 hours old) is deleted
provided it is still in the active snapshot. -/
theorem C8_decay_job (now : ℚ) (t : PulseDecayService.Tile) :
    (now - t.last_updated < 1 →
      PulseDecayService.get_decay_factor_by_age (now - t.last_updated) = 1)
    ∧ (1 ≤ now - t.last_updated → now - t.last_updated < 6 →
        PulseDecayService.get_decay_factor_by_age (now - t.last_updated)
          = max 0.5 (1 - (now - t.last_updated - 1) * 0.1)
        ∧ 0.5 ≤ PulseDecayService.get_decay_factor_by_age (now - t.last_updated))
    ∧ (6 ≤ now - t.last_updated → now - t.last_updated < 12 →
        PulseDecayService.get_decay_factor_by_age (now - t.last_updated)
          = max 0.25 (0.5 - (now - t.last_updated - 6) * 0.042)
        ∧ 0.25 ≤ PulseDecayService.get_decay_factor_by_age (now - t.last_updated))
    ∧ (12 ≤ now - t.last_updated → now - t.last_updated < 48 →
        PulseDecayService.get_decay_factor_by_age (now - t.last_updated)
          = max 0.02 (0.25 - (now - t.last_updated - 12) * 0.007))
    ∧ (48 ≤ now - t.last_updated →
        PulseDecayService.get_decay_factor_by_age (now - t.last_updated) = 0)
    ∧ (PulseDecayService.tile_active now t = true →
        (PulseDecayService.decay_pulses now [t] = []
          ↔ PulseDecayService.get_decay_factor_by_age (now - t.last_updated)
              ≤ 0.05))
    ∧ (PulseDecayService.tile_active now t = true →
        0.05 < PulseDecayService.get_decay_factor_by_age (now - t.last_updated) →
        ∃ e, PulseDecayService.decay_pulses now [t]
          = [⟨t.intensity
                * PulseDecayService.get_decay_factor_by_age (now - t.last_updated),
              now, some e⟩])
    ∧ (PulseDecayService.tile_active now t = false →
        PulseDecayService.decay_pulses now [t] = [t])
    ∧ (now - t.last_updated = 3 → 0 ≤ t.intensity →
        PulseDecayService.tile_active now t = true →
        ∃ t2, PulseDecayService.decay_pulses now [t] = [t2]
          ∧ t.intensity / 2 ≤ t2.intensity)
    ∧ (48 ≤ now - t.last_updated → PulseDecayService.tile_active now t = true →
        PulseDecayService.decay_pulses now [t] = []) := by
  refine ⟨?_, ?_, ?_, ?_, ?_, ?_, ?_, ?_, ?_, ?_⟩
  · intro h
    unfold PulseDecayService.get_decay_factor_by_age
    rw [if_pos h]
  · intro h1 h6
    unfold PulseDecayService.get_decay_factor_by_age
    rw [if_neg (not_lt.mpr h1), if_pos h6]
    exact ⟨rfl, le_max_left _ _⟩
  · intro h6 h12
    unfold PulseDecayService.get_decay_factor_by_age
    rw [if_neg (not_lt.mpr (by linarith)), if_neg (not_lt.mpr h6), if_pos h12]
    exact ⟨rfl, le_max_left _ _⟩
  · intro h12 h48
    unfold PulseDecayService.get_decay_factor_by_age
    rw [if_neg (not_lt.mpr (by linarith)), if_neg (not_lt.mpr (by linarith)),
      if_neg (not_lt.mpr h12), if_pos h48]
  · intro h48
    unfold PulseDecayService.get_decay_factor_by_age
    rw [if_neg (not_lt.mpr (by linarith)), if_neg (not_lt.mpr (by linarith)),
      if_neg (not_lt.mpr (by linarith)), if_neg (not_lt.mpr h48)]
  · intro hact
    unfold PulseDecayService.decay_pulses PulseDecayService.decay_tile
    simp only [List.filterMap, hact, if_true]
    by_cases hf :
        PulseDecayService.get_decay_factor_by_age (now - t.last_updated) ≤ 0.05
    · simp [hf]
    · simp [hf]
  · intro hact hf
    refine ⟨if t.intensity
        * PulseDecayService.get_decay_factor_by_age (now - t.last_updated) < 0.1
      then now + 1 else now + 24, ?_⟩
    unfold PulseDecayService.decay_pulses PulseDecayService.decay_tile
    simp only [List.filterMap, hact, if_true, if_neg (not_le.mpr hf)]
  · intro hact
    unfold PulseDecayService.decay_pulses
    simp only [List.filterMap, hact]
    simp
  · intro h3 hi hact
    have hf : PulseDecayService.get_decay_factor_by_age (now - t.last_updated)
        = 0.8 := by
      unfold PulseDecayService.get_decay_factor_by_age
      rw [h3]
      norm_num [min_def, max_def]
    refine ⟨⟨t.intensity * 0.8, now,
      some (if t.intensity * 0.8 < 0.1 then now + 1 else now + 24)⟩, ?_, ?_⟩
    · unfold PulseDecayService.decay_pulses PulseDecayService.decay_tile
      simp only [List.filterMap_cons, List.filterMap_nil, hact, if_true, hf]
      rw [if_neg (by norm_num : ¬ ((0.8 : ℚ) ≤ 0.05))]
    · dsimp only
      linarith
  · intro h48 hact
    have hf : PulseDecayService.get_decay_factor_by_age (now - t.last_updated)
        = 0 := by
      unfold PulseDecayService.get_decay_factor_by_age
      rw [if_neg (not_lt.mpr (by linarith)), if_neg (not_lt.mpr (by linarith)),
        if_neg (not_lt.mpr (by linarith)), if_neg (not_lt.mpr h48)]
    unfold PulseDecayService.decay_pulses PulseDecayService.decay_tile
    simp only [List.filterMap_cons, List.filterMap_nil, hact, if_true, hf]
    rw [if_pos (by norm_num : (0 : ℚ) ≤ 0.05)]

/-- Witness for C8: a tile with no `expires_at`, untouched for 50 hours, is
deleted by the decay job. -/
theorem C8_decay_job_witness :
    PulseDecayService.decay_pulses 50 [⟨0.3, 0, none⟩] = [] :=
  (C8_decay_job 50 ⟨0.3, 0, none⟩).2.2.2.2.2.2.2.2.2 (by norm_num) rfl

/-- C9 counterexample: a valid report created at hour 100 with `expires_at`
at hour 99 (already past) is still a member of the aggregation input — the
aggregation query filters only on the 12-hour timestamp window and
`is_valid`, never on `expires_at`. -/
theorem C9_not_excluded_from_aggregation :
    PulseAggregationService.aggregation_input 100 c9_signal = true
    ∧ c9_signal.expires_at = some 99 ∧ (99 : ℚ) < 100 := by
  refine ⟨?_, rfl, by norm_num⟩
  norm_num [PulseAggregationService.aggregation_input,
    PulseAggregationService.AGGREGATION_WINDOW_HOURS, c9_signal]

/-- C9 (amended): a report whose `expires_at` lies in the past is NOT
excluded from the next pulse-aggregation run's input — any valid report
inside the 12-hour timestamp window is aggregated regardless of
`expires_at` — and the expiration sweep `expire_reports_batch` marks such a
valid, non-deleted report with status expired. -/
theorem C9_expired_report_flow (now : ℚ) (s : Signal) :
    (s.is_valid = true → now - 12 < s.timestamp →
      PulseAggregationService.aggregation_input now s = true)
    ∧ (∀ e, s.expires_at = some e → e < now → s.is_valid = true →
        ¬ (s.status = ReportStatus.deleted) →
        ReportLifecycleService.expire_reports_batch now [s]
          = [{ s with status := ReportStatus.expired }]) := by
  constructor
  · intro hv ht
    simp [PulseAggregationService.aggregation_input,
      PulseAggregationService.AGGREGATION_WINDOW_HOURS, hv, ht]
  · intro e he hlt hv hnd
    have hsel : ReportLifecycleService.selected_for_expiration now s = true := by
      simp [ReportLifecycleService.selected_for_expiration, he, hlt, hv, hnd]
    have hexp : ReportLifecycleService.check_and_expire_report now s
        = { s with status := ReportStatus.expired } := by
      simp [ReportLifecycleService.check_and_expire_report, he, hlt, hnd]
    simp [ReportLifecycleService.expire_reports_batch, hsel, hexp]

/-- Witness for C9: the expiration sweep marks `c9_signal` expired at
hour 100. -/
theorem C9_expired_report_flow_witness :
    ReportLifecycleService.expire_reports_batch 100 [c9_signal]
      = [{ c9_signal with status := ReportStatus.expired }] :=
  (C9_expired_report_flow 100 c9_signal).2 99 rfl (by norm_num) rfl
    (by simp [c9_signal])

/-- C10: on a pending report with at least 3 total votes where the
recomputed confidence reaches 0.7 and the downvote share simultaneously
reaches 0.3, `update_status_from_votes` sets status verified, not disputed:
the verification check runs before the dispute check, and `disputed_at` is
left untouched. -/
theorem C10_verified_beats_disputed (now : ℚ) (s : Signal)
    (hp : s.status = ReportStatus.pending)
    (h3 : 3 ≤ s.true_votes + s.false_votes)
    (hconf : 0.7 ≤ ReportLifecycleService.calculate_confidence now s
      s.true_votes s.false_votes)
    (_hdown : 0.3 ≤ (s.false_votes : ℚ)
      / ((s.true_votes + s.false_votes : ℕ) : ℚ)) :
    (ReportLifecycleService.update_status_from_votes now s).status
      = ReportStatus.verified
    ∧ (ReportLifecycleService.update_status_from_votes now s).disputed_at
      = s.disputed_at := by
  unfold ReportLifecycleService.update_status_from_votes
  simp only [ReportLifecycleService.MIN_VOTES_FOR_STATUS_UPDATE,
    ReportLifecycleService.VERIFY_THRESHOLD,
    ReportLifecycleService.DISPUTE_THRESHOLD]
  rw [if_neg (Nat.not_lt.mpr h3), if_pos ⟨hp, hconf⟩]
  exact ⟨rfl, rfl⟩

/-- Witness for C10: `c10_signal` (7 true / 3 false votes, confidence 0.84,
downvote share 0.3) becomes verified. -/
theorem C10_verified_beats_disputed_witness :
    (ReportLifecycleService.update_status_from_votes 0 c10_signal).status
      = ReportStatus.verified
    ∧ (ReportLifecycleService.update_status_from_votes 0 c10_signal).disputed_at
      = c10_signal.disputed_at :=
  C10_verified_beats_disputed 0 c10_signal rfl (by norm_num [c10_signal])
    (by norm_num [ReportLifecycleService.calculate_confidence,
      ReportLifecycleService.VOTE_WEIGHT, ReportLifecycleService.TRUST_WEIGHT,
      ReportLifecycleService.RECENCY_WEIGHT,
      ReportLifecycleService.SEVERITY_WEIGHT, c10_signal, min_def, max_def])
    (by norm_num [c10_signal])

end SafePulse
